import Mathlib

/-!
# espat/net.go : sockets over an AT-command serial transport

A shallow embedding of `espat/net.go`.  Go strings and byte slices are byte
sequences; the device's transport commands (`DisconnectSocket`,
`ConnectUDPSocket`, `ConnectTCPSocket`, `StartSocketSend`, raw `Write`,
`ReadSocket`, `GetDNS`) live outside `net.go` and are taken as a parameter
(`Transport`); every call made on the transport is recorded, in order, in the
device's `log`.  A Go pointer that may be nil is an `Option`, and a Go panic
is the `Except.error` branch of the result.
-/

deriving instance DecidableEq for Except

namespace Espat

/-! ## Bytes and strings -/

/-- One byte. -/
abbrev Byte := Fin 256

/-- Go `string`: an immutable sequence of bytes. -/
abbrev GoString := List Byte

/-- The byte sequence of an ASCII text (used to write concrete inputs). -/
def ascii (s : String) : GoString :=
  s.toList.map (fun c => Fin.ofNat c.toNat)

/-- The byte `:`. -/
def colon : Byte := 58

/-- The byte `0`. -/
def zeroByte : Byte := 48

/-- The byte `-`. -/
def minusByte : Byte := 45

/-- The byte `+`. -/
def plusByte : Byte := 43

/-! ## Go standard library: `strings.Split`, `strconv.Itoa`, `strconv.Atoi` -/

/-- Go `strings.Count(s, sep)` for a one-byte separator. -/
def Count : GoString → Byte → Nat
  | [], _ => 0
  | c :: cs, sep => if c = sep then Count cs sep + 1 else Count cs sep

/-- Go `strings.Index(s, sep)` for a one-byte separator: the index of the
first occurrence, `-1` when there is none. -/
def Index : GoString → Byte → Int
  | [], _ => -1
  | c :: cs, sep =>
    if c = sep then 0
    else
      let m := Index cs sep
      if m < 0 then -1 else m + 1

/-- The loop of Go `genSplit`: at most `n` cuts, each at the next separator;
what is left is the last element. -/
def genSplitLoop (sep : Byte) : Nat → GoString → List GoString
  | 0, s => [s]
  | n + 1, s =>
    let m := Index s sep
    if m < 0 then [s]
    else s.take m.toNat :: genSplitLoop sep n (s.drop (m.toNat + 1))

/-- Go `strings.Split(s, sep)` for a one-byte separator: `s` cut at every
occurrence of `sep` (`Count(s, sep) + 1` elements). -/
def Split (s : GoString) (sep : Byte) : List GoString :=
  genSplitLoop sep (Count s sep) s

/-- The ASCII digit of a number below ten. -/
def digitByte (d : Nat) : Byte := Fin.ofNat (48 + d % 10)

/-- The loop of Go `formatBits` in base 10: the digits of `n`, most
significant first, written in front of `acc` (the buffer is filled from its
end); the first argument bounds the number of turns. -/
def formatBitsLoop : Nat → Nat → GoString → GoString
  | 0, n, acc => digitByte n :: acc
  | fuel + 1, n, acc =>
    if n < 10 then digitByte n :: acc
    else formatBitsLoop fuel (n / 10) (digitByte (n % 10) :: acc)

/-- Go `formatBits(nil, n, 10, false, false)`: the decimal digits of `n`. -/
def formatBits (n : Nat) : GoString := formatBitsLoop n n []

/-- Go `strconv.Itoa(i)`. -/
def Itoa (i : Int) : GoString :=
  if i < 0 then minusByte :: formatBits (-i).toNat else formatBits i.toNat

/-- The two errors of Go `strconv`: `ErrSyntax` and `ErrRange`. -/
inductive NumErrKind
  | ErrSyntax
  | ErrRange
  deriving DecidableEq, Repr

/-- Go `*strconv.NumError` as `Atoi` builds it (`Func` is always "Atoi"). -/
structure NumError where
  Num : GoString
  Err : NumErrKind
  deriving DecidableEq, Repr

/-- The digit loop of Go `strconv.ParseUint` in base 10: a byte that is not a
digit is a syntax error, a value above `maxVal` a range error, whichever the
scan meets first. -/
def parseUintLoop (maxVal : Nat) : GoString → Nat → Except NumErrKind Nat
  | [], n => .ok n
  | c :: cs, n =>
    if (c - zeroByte).val > 9 then .error .ErrSyntax
    else
      let n1 := n * 10 + (c - zeroByte).val
      if n1 > maxVal then .error .ErrRange
      else parseUintLoop maxVal cs n1

/-- Go `strconv.ParseUint(s, 10, bitSize)`. -/
def ParseUint (bitSize : Nat) (s : GoString) : Except NumErrKind Nat :=
  match s with
  | [] => .error .ErrSyntax
  | _ :: _ => parseUintLoop (2 ^ bitSize - 1) s 0

/-- Go `strconv.Atoi(s)` on a platform whose `int` has `intSize` bits: an
optional sign, then decimal digits, the value within the range of `int`. -/
def Atoi (intSize : Nat) (s : GoString) : Except NumError Int :=
  match s with
  | [] => .error ⟨s, .ErrSyntax⟩
  | c :: cs =>
    let neg := decide (c = minusByte)
    let digits := if c = plusByte ∨ c = minusByte then cs else s
    match ParseUint intSize digits with
    | .error k => .error ⟨s, k⟩
    | .ok un =>
      let cutoff := 2 ^ (intSize - 1)
      if ¬ neg ∧ un ≥ cutoff then .error ⟨s, .ErrRange⟩
      else if neg ∧ un > cutoff then .error ⟨s, .ErrRange⟩
      else .ok (if neg then -(un : Int) else (un : Int))

/-! ## Addresses -/

/-- Go `type IP []byte`: the bytes of the textual form of the address. -/
structure IP where
  bytes : List Byte
  deriving DecidableEq, Repr

/-- Go `UDPAddr`. -/
structure UDPAddr where
  IP : IP
  Port : Int
  Zone : GoString
  deriving DecidableEq, Repr

/-- Go `TCPAddr`. -/
structure TCPAddr where
  IP : IP
  Port : Int
  Zone : GoString
  deriving DecidableEq, Repr

/-- Go `ParseIP`: `IP([]byte(s))`. -/
def ParseIP (s : GoString) : IP := ⟨s⟩

/-- Go `IP.String`: `string(ip)`. -/
def IP.String (ip : IP) : GoString := ip.bytes

/-! ## The device and its transport -/

/-- A Go run-time panic. -/
inductive Panic
  | nilDereference
  | indexOutOfRange
  deriving DecidableEq, Repr

/-- A call made on the transport, with its arguments. -/
inductive Call
  | DisconnectSocket
  | ConnectUDPSocket (addr sendport listenport : GoString)
  | ConnectTCPSocket (addr port : GoString)
  | StartSocketSend (size : Int)
  | Write (b : List Byte)
  | ReadSocket (b : List Byte)
  | GetDNS (domain : GoString)
  deriving DecidableEq, Repr

/-- The command a call belongs to, its arguments left out. -/
inductive CallKind
  | disconnect
  | connectUDP
  | connectTCP
  | startSend
  | rawWrite
  | readSocket
  | getDNS
  deriving DecidableEq, Repr

/-- The command of a call. -/
def Call.kind : Call → CallKind
  | .DisconnectSocket => .disconnect
  | .ConnectUDPSocket _ _ _ => .connectUDP
  | .ConnectTCPSocket _ _ => .connectTCP
  | .StartSocketSend _ => .startSend
  | .Write _ => .rawWrite
  | .ReadSocket _ => .readSocket
  | .GetDNS _ => .getDNS

/-- A socket operation is any command but the name lookup. -/
def Call.isSocketOp (c : Call) : Bool := c.kind != .getDNS

/-- The `Device` methods that `net.go` calls and that are declared outside
it, over a transport state `σ` and transport errors `E`; a Go `error` result
is `none` for nil.  Their behaviour is arbitrary. -/
structure Transport (σ E : Type) where
  DisconnectSocket : σ → Option E × σ
  ConnectUDPSocket : GoString → GoString → GoString → σ → Option E × σ
  ConnectTCPSocket : GoString → GoString → σ → Option E × σ
  StartSocketSend : Int → σ → Option E × σ
  Write : List Byte → σ → (Int × Option E) × σ
  ReadSocket : List Byte → σ → (Int × Option E) × σ
  GetDNS : GoString → σ → (IP × Option E) × σ

/-- Go `Device` as `net.go` sees it: the state of the transport behind it,
and the calls made on the transport so far, oldest first. -/
structure Device (σ : Type) where
  state : σ
  log : List Call
  deriving DecidableEq, Repr

/-- A Go `error` value returned by `net.go`: an error of the transport, or
the `*strconv.NumError` of `Atoi`. -/
inductive GoError (E : Type)
  | transport (e : E)
  | num (e : NumError)
  deriving DecidableEq, Repr

variable {σ E : Type}

/-- The call `d.DisconnectSocket()`. -/
def Device.DisconnectSocket (T : Transport σ E) (d : Device σ) : Option E × Device σ :=
  let r := T.DisconnectSocket d.state
  (r.1, ⟨r.2, d.log ++ [Call.DisconnectSocket]⟩)

/-- The call `d.ConnectUDPSocket(addr, sendport, listenport)`. -/
def Device.ConnectUDPSocket (T : Transport σ E) (d : Device σ)
    (addr sendport listenport : GoString) : Option E × Device σ :=
  let r := T.ConnectUDPSocket addr sendport listenport d.state
  (r.1, ⟨r.2, d.log ++ [Call.ConnectUDPSocket addr sendport listenport]⟩)

/-- The call `d.ConnectTCPSocket(addr, port)`. -/
def Device.ConnectTCPSocket (T : Transport σ E) (d : Device σ)
    (addr port : GoString) : Option E × Device σ :=
  let r := T.ConnectTCPSocket addr port d.state
  (r.1, ⟨r.2, d.log ++ [Call.ConnectTCPSocket addr port]⟩)

/-- The call `d.StartSocketSend(size)`. -/
def Device.StartSocketSend (T : Transport σ E) (d : Device σ) (size : Int) :
    Option E × Device σ :=
  let r := T.StartSocketSend size d.state
  (r.1, ⟨r.2, d.log ++ [Call.StartSocketSend size]⟩)

/-- The call `d.Write(b)`, the raw write. -/
def Device.Write (T : Transport σ E) (d : Device σ) (b : List Byte) :
    (Int × Option E) × Device σ :=
  let r := T.Write b d.state
  (r.1, ⟨r.2, d.log ++ [Call.Write b]⟩)

/-- The call `d.ReadSocket(b)`. -/
def Device.ReadSocket (T : Transport σ E) (d : Device σ) (b : List Byte) :
    (Int × Option E) × Device σ :=
  let r := T.ReadSocket b d.state
  (r.1, ⟨r.2, d.log ++ [Call.ReadSocket b]⟩)

/-- The call `d.GetDNS(domain)`. -/
def Device.GetDNS (T : Transport σ E) (d : Device σ) (domain : GoString) :
    (IP × Option E) × Device σ :=
  let r := T.GetDNS domain d.state
  (r.1, ⟨r.2, d.log ++ [Call.GetDNS domain]⟩)

/-! ## Sessions -/

/-- Go `SerialConn`.  Its one field, the pointer `Adaptor`, is the device the
session was made on; the methods below take that device as an argument. -/
structure SerialConn where
  deriving DecidableEq, Repr

/-- Go `UDPSerialConn`. -/
structure UDPSerialConn where
  SerialConn : SerialConn
  laddr : Option UDPAddr
  raddr : Option UDPAddr
  deriving DecidableEq, Repr

/-- Go `TCPSerialConn`. -/
structure TCPSerialConn where
  SerialConn : SerialConn
  laddr : Option TCPAddr
  raddr : Option TCPAddr
  deriving DecidableEq, Repr

/-- Go `Device.DialUDP`. -/
def Device.DialUDP (T : Transport σ E) (d : Device σ) (_network : GoString)
    (laddr raddr : Option UDPAddr) :
    Except Panic ((Option UDPSerialConn × Option (GoError E)) × Device σ) :=
  match raddr with
  | none => .error .nilDereference
  | some ra =>
    let addr := ra.IP.String
    let sendport := Itoa ra.Port
    match laddr with
    | none => .error .nilDereference
    | some la =>
      let listenport := Itoa la.Port
      let d1 := (d.DisconnectSocket T).2
      let d2 := (d1.ConnectUDPSocket T addr sendport listenport).2
      .ok ((some ⟨⟨⟩, laddr, raddr⟩, none), d2)

/-- Go `Device.ListenUDP`. -/
def Device.ListenUDP (T : Transport σ E) (d : Device σ) (_network : GoString)
    (laddr : Option UDPAddr) :
    Except Panic ((Option UDPSerialConn × Option (GoError E)) × Device σ) :=
  let addr := ascii "0"
  let sendport := ascii "0"
  match laddr with
  | none => .error .nilDereference
  | some la =>
    let listenport := Itoa la.Port
    let d1 := (d.DisconnectSocket T).2
    let d2 := (d1.ConnectUDPSocket T addr sendport listenport).2
    .ok ((some ⟨⟨⟩, laddr, none⟩, none), d2)

/-- Go `Device.DialTCP`. -/
def Device.DialTCP (T : Transport σ E) (d : Device σ) (_network : GoString)
    (laddr raddr : Option TCPAddr) :
    Except Panic ((Option TCPSerialConn × Option (GoError E)) × Device σ) :=
  match raddr with
  | none => .error .nilDereference
  | some ra =>
    let addr := ra.IP.String
    let sendport := Itoa ra.Port
    let d1 := (d.DisconnectSocket T).2
    let d2 := (d1.ConnectTCPSocket T addr sendport).2
    .ok ((some ⟨⟨⟩, laddr, raddr⟩, none), d2)

/-- Go `SerialConn.Read`, on the device `d` the session points to. -/
def SerialConn.Read (T : Transport σ E) (_c : SerialConn) (d : Device σ) (b : List Byte) :
    (Int × Option E) × Device σ :=
  d.ReadSocket T b

/-- Go `SerialConn.Write`, on the device `d` the session points to. -/
def SerialConn.Write (T : Transport σ E) (_c : SerialConn) (d : Device σ) (b : List Byte) :
    (Int × Option E) × Device σ :=
  let d1 := (d.StartSocketSend T (b.length : Int)).2
  d1.Write T b

/-- Go `SerialConn.Close`, on the device `d` the session points to. -/
def SerialConn.Close (T : Transport σ E) (_c : SerialConn) (d : Device σ) :
    Option (GoError E) × Device σ :=
  let d1 := (d.DisconnectSocket T).2
  (none, d1)

/-- Go `UDPSerialConn.LocalAddr`: `*c.laddr`. -/
def UDPSerialConn.LocalAddr (c : UDPSerialConn) : Except Panic UDPAddr :=
  match c.laddr with
  | none => .error .nilDereference
  | some a => .ok a

/-- Go `UDPSerialConn.RemoteAddr`: `*c.laddr`. -/
def UDPSerialConn.RemoteAddr (c : UDPSerialConn) : Except Panic UDPAddr :=
  match c.laddr with
  | none => .error .nilDereference
  | some a => .ok a

/-- Go `TCPSerialConn.LocalAddr`: `*c.laddr`. -/
def TCPSerialConn.LocalAddr (c : TCPSerialConn) : Except Panic TCPAddr :=
  match c.laddr with
  | none => .error .nilDereference
  | some a => .ok a

/-- Go `TCPSerialConn.RemoteAddr`: `*c.laddr`. -/
def TCPSerialConn.RemoteAddr (c : TCPSerialConn) : Except Panic TCPAddr :=
  match c.laddr with
  | none => .error .nilDereference
  | some a => .ok a

/-! ## Resolving addresses -/

/-- Go `Device.ResolveTCPAddr`, on a platform whose `int` has `intSize`
bits. -/
def Device.ResolveTCPAddr (T : Transport σ E) (intSize : Nat) (d : Device σ)
    (_network address : GoString) :
    Except Panic ((Option TCPAddr × Option (GoError E)) × Device σ) :=
  let r := Split address colon
  match r with
  | [] => .error .indexOutOfRange
  | r0 :: rest =>
    let g := d.GetDNS T r0
    let ip := g.1.1
    let d1 := g.2
    match g.1.2 with
    | some err => .ok ((none, some (.transport err)), d1)
    | none =>
      match rest with
      | r1 :: _ =>
        match Atoi intSize r1 with
        | .error e => .ok ((none, some (.num e)), d1)
        | .ok port => .ok ((some ⟨ip, port, []⟩, none), d1)
      | [] => .ok ((some ⟨ip, 0, []⟩, none), d1)

/-- Go `Device.ResolveUDPAddr`, on a platform whose `int` has `intSize`
bits. -/
def Device.ResolveUDPAddr (T : Transport σ E) (intSize : Nat) (d : Device σ)
    (_network address : GoString) :
    Except Panic ((Option UDPAddr × Option (GoError E)) × Device σ) :=
  let r := Split address colon
  match r with
  | [] => .error .indexOutOfRange
  | r0 :: rest =>
    let g := d.GetDNS T r0
    let ip := g.1.1
    let d1 := g.2
    match g.1.2 with
    | some err => .ok ((none, some (.transport err)), d1)
    | none =>
      match rest with
      | r1 :: _ =>
        match Atoi intSize r1 with
        | .error e => .ok ((none, some (.num e)), d1)
        | .ok port => .ok ((some ⟨ip, port, []⟩, none), d1)
      | [] => .ok ((some ⟨ip, 0, []⟩, none), d1)

/-! ## Concrete transports and inputs -/

/-- A transport whose every command succeeds; names resolve to "10.0.0.5". -/
def okTransport : Transport Unit Nat where
  DisconnectSocket := fun s => (none, s)
  ConnectUDPSocket := fun _ _ _ s => (none, s)
  ConnectTCPSocket := fun _ _ s => (none, s)
  StartSocketSend := fun _ s => (none, s)
  Write := fun b s => ((b.length, none), s)
  ReadSocket := fun _ s => ((0, none), s)
  GetDNS := fun _ s => ((ParseIP (ascii "10.0.0.5"), none), s)

/-- A transport whose connect and send-announce commands fail with error
`7`, the rest as in `okTransport`. -/
def failTransport : Transport Unit Nat where
  DisconnectSocket := fun s => (none, s)
  ConnectUDPSocket := fun _ _ _ s => (some 7, s)
  ConnectTCPSocket := fun _ _ s => (some 7, s)
  StartSocketSend := fun _ s => (some 7, s)
  Write := fun b s => ((b.length, none), s)
  ReadSocket := fun _ s => ((0, none), s)
  GetDNS := fun _ s => ((ParseIP (ascii "10.0.0.5"), none), s)

/-- A device on which no call has been made. -/
def freshDevice : Device Unit := ⟨(), []⟩

/-! ## The specification's vocabulary -/

/-- The base-10 rendering of `n` without padding: its decimal digits, most
significant first, `0` for zero. -/
def decimal (n : Nat) : GoString :=
  if n = 0 then [zeroByte] else (Nat.digits 10 n).reverse.map digitByte

/-- A byte that is an ASCII decimal digit. -/
def isDigit (c : Byte) : Bool := decide (48 ≤ c.val ∧ c.val ≤ 57)

/-- A text that is a base-10 integer: an optional sign, then one or more
decimal digits. -/
def isBase10Integer (t : GoString) : Bool :=
  match t with
  | [] => false
  | c :: cs =>
    if c = plusByte ∨ c = minusByte then !cs.isEmpty && cs.all isDigit
    else t.all isDigit

/-! ## Lemmas on `strings.Split` -/

theorem Index_of_not_mem (sep : Byte) (s : GoString) (h : sep ∉ s) : Index s sep = -1 := by
  induction s with
  | nil => rfl
  | cons c cs ih =>
    have hc : c ≠ sep := fun e => h (by simp [e])
    have hcs : sep ∉ cs := fun e => h (by simp [e])
    simp [Index, hc, ih hcs]

theorem Count_of_not_mem (sep : Byte) (s : GoString) (h : sep ∉ s) : Count s sep = 0 := by
  induction s with
  | nil => rfl
  | cons c cs ih =>
    have hc : c ≠ sep := fun e => h (by simp [e])
    have hcs : sep ∉ cs := fun e => h (by simp [e])
    simp [Count, hc, ih hcs]

theorem Index_append_sep (sep : Byte) (s t : GoString) (h : sep ∉ s) :
    Index (s ++ sep :: t) sep = (s.length : Int) := by
  induction s with
  | nil => simp [Index]
  | cons c cs ih =>
    have hc : c ≠ sep := fun e => h (by simp [e])
    have hcs : sep ∉ cs := fun e => h (by simp [e])
    have hn : ¬ ((cs.length : Int) < 0) := by omega
    have e := ih hcs
    show (if c = sep then (0 : Int)
      else if Index (cs ++ sep :: t) sep < 0 then -1 else Index (cs ++ sep :: t) sep + 1) = _
    rw [if_neg hc, e, if_neg hn]
    simp

theorem Count_append_sep (sep : Byte) (s t : GoString) (h : sep ∉ s) :
    Count (s ++ sep :: t) sep = Count t sep + 1 := by
  induction s with
  | nil => simp [Count]
  | cons c cs ih =>
    have hc : c ≠ sep := fun e => h (by simp [e])
    have hcs : sep ∉ cs := fun e => h (by simp [e])
    simp [Count, hc, ih hcs]

/-- A text without the separator is the one element of its split. -/
theorem Split_of_not_mem (sep : Byte) (s : GoString) (h : sep ∉ s) : Split s sep = [s] := by
  simp [Split, Count_of_not_mem sep s h, genSplitLoop]

/-- The first element of a split is the text before the first separator, and
the rest is the split of the text after it. -/
theorem Split_append_sep (sep : Byte) (s t : GoString) (h : sep ∉ s) :
    Split (s ++ sep :: t) sep = s :: Split t sep := by
  have hn : ¬ ((s.length : Int) < 0) := by omega
  simp [Split, Count_append_sep sep s t h, genSplitLoop, Index_append_sep sep s t h, hn]

/-! ## Lemmas on `strconv.Itoa` and `strconv.Atoi` -/

theorem digitByte_val (d : Nat) : (digitByte d).val = 48 + d % 10 := by
  have h : d % 10 < 10 := Nat.mod_lt _ (by decide)
  show (48 + d % 10) % 256 = 48 + d % 10
  omega

theorem sub_zeroByte_val (c : Byte) : (c - zeroByte).val = (c.val + 208) % 256 := by
  rw [Fin.sub_def]
  show (256 - 48 + c.val) % 256 = (c.val + 208) % 256
  omega

theorem digitByte_sub (d : Nat) : (digitByte d - zeroByte).val = d % 10 := by
  rw [sub_zeroByte_val, digitByte_val]
  omega

theorem digitByte_ne_plus (d : Nat) : digitByte d ≠ plusByte := by
  intro h
  have := congrArg Fin.val h
  rw [digitByte_val] at this
  have : 48 + d % 10 = 43 := this
  omega

theorem digitByte_ne_minus (d : Nat) : digitByte d ≠ minusByte := by
  intro h
  have := congrArg Fin.val h
  rw [digitByte_val] at this
  have : 48 + d % 10 = 45 := this
  omega

theorem not_digit_iff (c : Byte) : (c - zeroByte).val > 9 ↔ isDigit c = false := by
  rw [sub_zeroByte_val]
  have := c.isLt
  simp only [isDigit, decide_eq_false_iff_not]
  omega

theorem formatBitsLoop_unfold (fuel n : Nat) (acc : GoString) (h : n ≤ fuel) :
    formatBitsLoop fuel n acc =
      if n < 10 then digitByte n :: acc
      else formatBitsLoop (fuel - 1) (n / 10) (digitByte (n % 10) :: acc) := by
  cases fuel with
  | zero =>
    have : n = 0 := by omega
    subst this
    rfl
  | succ f => rfl

/-- The digit loop writes the base-10 rendering in front of the buffer. -/
theorem formatBitsLoop_eq_decimal (n : Nat) :
    ∀ (fuel : Nat) (acc : GoString), n ≤ fuel → formatBitsLoop fuel n acc = decimal n ++ acc := by
  induction n using Nat.strong_induction_on with
  | _ n ih =>
    intro fuel acc hf
    rw [formatBitsLoop_unfold fuel n acc hf]
    by_cases h10 : n < 10
    · rw [if_pos h10]
      by_cases h0 : n = 0
      · subst h0
        rfl
      · have hd : Nat.digits 10 n = [n] := Nat.digits_of_lt 10 n h0 h10
        simp [decimal, h0, hd]
    · rw [if_neg h10]
      have hlt : n / 10 < n := by omega
      have hpos : 0 < n := by omega
      have hq : n / 10 ≠ 0 := by omega
      rw [ih (n / 10) hlt (fuel - 1) _ (by omega)]
      have hd : Nat.digits 10 n = (n % 10) :: Nat.digits 10 (n / 10) :=
        Nat.digits_def' (by decide) hpos
      have hn0 : n ≠ 0 := by omega
      simp [decimal, hq, hn0, hd]

/-- `Itoa` of a number that is not negative is its base-10 rendering. -/
theorem Itoa_eq_decimal (i : Int) (h : 0 ≤ i) : Itoa i = decimal i.toNat := by
  have hn : ¬ i < 0 := by omega
  simp only [Itoa, if_neg hn, formatBits]
  rw [formatBitsLoop_eq_decimal _ _ _ (le_refl _)]
  simp

/-- Reading back the digits the digit loop wrote gives the number. -/
theorem parseUintLoop_formatBitsLoop (maxVal : Nat) (n : Nat) :
    ∀ (fuel : Nat) (acc : GoString), n ≤ fuel → n ≤ maxVal →
      parseUintLoop maxVal (formatBitsLoop fuel n acc) 0 = parseUintLoop maxVal acc n := by
  induction n using Nat.strong_induction_on with
  | _ n ih =>
    intro fuel acc hf hm
    rw [formatBitsLoop_unfold fuel n acc hf]
    by_cases h10 : n < 10
    · rw [if_pos h10]
      have hmod : n % 10 = n := Nat.mod_eq_of_lt h10
      have h9 : ¬ (n > 9) := by omega
      have hmx : ¬ (n > maxVal) := by omega
      simp [parseUintLoop, digitByte_sub, hmod, h9, hmx]
    · rw [if_neg h10]
      have hlt : n / 10 < n := by omega
      rw [ih (n / 10) hlt (fuel - 1) _ (by omega) (by omega)]
      have h9 : ¬ (9 < n % 10) := by omega
      have hval : n / 10 * 10 + n % 10 = n := by omega
      have hmx : ¬ (maxVal < n) := by omega
      simp [parseUintLoop, digitByte_sub, h9, hval, hmx]

theorem decimal_eq_formatBits (n : Nat) : decimal n = formatBits n := by
  simp [formatBits, formatBitsLoop_eq_decimal n n [] (le_refl _)]

theorem decimal_head (n : Nat) : ∃ d rest, decimal n = digitByte d :: rest := by
  rw [decimal_eq_formatBits, formatBits]
  generalize ([] : GoString) = acc
  have key : ∀ (m fuel : Nat) (acc : GoString), m ≤ fuel →
      ∃ d rest, formatBitsLoop fuel m acc = digitByte d :: rest := by
    intro m
    induction m using Nat.strong_induction_on with
    | _ m ih =>
      intro fuel acc hf
      rw [formatBitsLoop_unfold fuel m acc hf]
      by_cases h10 : m < 10
      · rw [if_pos h10]
        exact ⟨m, acc, rfl⟩
      · rw [if_neg h10]
        exact ih (m / 10) (by omega) (fuel - 1) _ (by omega)
  exact key n n acc (le_refl _)

/-- `Atoi` reads the base-10 rendering of a number within the range of `int`
back to that number. -/
theorem Atoi_decimal (intSize n : Nat) (h : n < 2 ^ (intSize - 1)) :
    Atoi intSize (decimal n) = .ok (n : Int) := by
  obtain ⟨d, rest, hd⟩ := decimal_head n
  have hle : 2 ^ (intSize - 1) ≤ 2 ^ intSize := Nat.pow_le_pow_right (by decide) (by omega)
  have hparse : ParseUint intSize (decimal n) = .ok n := by
    have hp := parseUintLoop_formatBitsLoop (2 ^ intSize - 1) n n [] (le_refl _) (by omega)
    rw [← formatBits, ← decimal_eq_formatBits] at hp
    rw [hd] at hp ⊢
    simpa [ParseUint, parseUintLoop] using hp
  have hge : ¬ (n ≥ 2 ^ (intSize - 1)) := by omega
  rw [hd] at hparse ⊢
  simp [Atoi, digitByte_ne_plus, digitByte_ne_minus, hparse, hge]

theorem parseUintLoop_not_digits (maxVal : Nat) (s : GoString) (h : s.all isDigit = false) :
    ∀ n, ∃ k, parseUintLoop maxVal s n = .error k := by
  induction s with
  | nil => simp at h
  | cons c cs ih =>
    intro n
    by_cases hc : (c - zeroByte).val > 9
    · exact ⟨.ErrSyntax, by simp [parseUintLoop, hc]⟩
    · have hd : isDigit c = true := by
        by_contra hn
        exact hc ((not_digit_iff c).2 (by simpa using hn))
      have hcs : cs.all isDigit = false := by
        simpa [List.all_cons, hd] using h
      by_cases hm : n * 10 + (c - zeroByte).val > maxVal
      · exact ⟨.ErrRange, by simp [parseUintLoop, hc, hm]⟩
      · obtain ⟨k, hk⟩ := ih hcs (n * 10 + (c - zeroByte).val)
        exact ⟨k, by simp [parseUintLoop, hc, hm, hk]⟩

theorem ParseUint_not_digits (bitSize : Nat) (s : GoString)
    (h : s = [] ∨ s.all isDigit = false) : ∃ k, ParseUint bitSize s = .error k := by
  cases s with
  | nil => exact ⟨.ErrSyntax, rfl⟩
  | cons c cs =>
    have h2 : (c :: cs).all isDigit = false := by
      rcases h with h | h
      · cases h
      · exact h
    exact parseUintLoop_not_digits _ _ h2 0

/-- `Atoi` rejects every text that is not a base-10 integer. -/
theorem Atoi_not_integer (intSize : Nat) (t : GoString) (h : isBase10Integer t = false) :
    ∃ k, Atoi intSize t = .error ⟨t, k⟩ := by
  cases t with
  | nil => exact ⟨.ErrSyntax, rfl⟩
  | cons c cs =>
    by_cases hs : c = plusByte ∨ c = minusByte
    · have h2 : cs = [] ∨ cs.all isDigit = false := by
        simp only [isBase10Integer, if_pos hs] at h
        cases cs with
        | nil => exact Or.inl rfl
        | cons x xs => exact Or.inr (by simpa using h)
      obtain ⟨k, hk⟩ := ParseUint_not_digits intSize cs h2
      exact ⟨k, by simp [Atoi, hs, hk]⟩
    · have h2 : (c :: cs).all isDigit = false := by
        simpa only [isBase10Integer, if_neg hs] using h
      obtain ⟨k, hk⟩ := ParseUint_not_digits intSize (c :: cs) (Or.inr h2)
      exact ⟨k, by simp [Atoi, hs, hk]⟩

/-- The second element of the split at `:` is the text between the first and
the second `:` (or the end). -/
theorem Split_second (h seg rest : GoString) (hh : colon ∉ h) (hseg : colon ∉ seg)
    (hrest : rest = [] ∨ rest.head? = some colon) :
    ∃ more, Split (h ++ colon :: (seg ++ rest)) colon = h :: seg :: more := by
  rw [Split_append_sep colon h _ hh]
  rcases hrest with hr | hr
  · subst hr
    exact ⟨[], by simp [Split_of_not_mem colon seg hseg]⟩
  · cases rest with
    | nil => simp at hr
    | cons x xs =>
      have hx : x = colon := by simpa using hr
      subst hx
      exact ⟨Split xs colon, by rw [Split_append_sep colon seg xs hseg]⟩

/-! ## Sessions: `DialUDP`, `ListenUDP`, `DialTCP`, `Write` -/

/-- C1, the code at the failing input: on the session that
`DialTCP(nil, raddr)` returns for `raddr` = 10.0.0.5 port 80, `RemoteAddr()`
dereferences the nil `laddr` and panics; and when a `laddr` is given
(192.168.0.2 port 5000), `RemoteAddr()` returns that local endpoint, which is
not `raddr`. -/
theorem C1_RemoteAddr_returns_laddr :
    (∃ c d1, Device.DialTCP okTransport freshDevice (ascii "tcp") none
        (some ⟨ParseIP (ascii "10.0.0.5"), 80, []⟩) = .ok ((some c, none), d1) ∧
      c.RemoteAddr = .error .nilDereference) ∧
    (∃ c d1, Device.DialTCP okTransport freshDevice (ascii "tcp")
        (some ⟨ParseIP (ascii "192.168.0.2"), 5000, []⟩)
        (some ⟨ParseIP (ascii "10.0.0.5"), 80, []⟩) = .ok ((some c, none), d1) ∧
      c.RemoteAddr = .ok ⟨ParseIP (ascii "192.168.0.2"), 5000, []⟩ ∧
      c.RemoteAddr ≠ .ok ⟨ParseIP (ascii "10.0.0.5"), 80, []⟩) :=
  ⟨⟨_, _, rfl, rfl⟩, ⟨_, _, rfl, rfl, by decide⟩⟩

/-- C2 refuted: on a transport whose connect commands return the error `7`,
`DialTCP`, `DialUDP` and `ListenUDP` each return a session and a nil error. -/
theorem C2_connect_error_not_returned :
    (failTransport.ConnectTCPSocket (ascii "10.0.0.5") (ascii "80") ()).1 = some 7 ∧
    Device.DialTCP failTransport freshDevice (ascii "tcp") none
        (some ⟨ParseIP (ascii "10.0.0.5"), 80, []⟩) =
      .ok ((some ⟨⟨⟩, none, some ⟨ParseIP (ascii "10.0.0.5"), 80, []⟩⟩, none),
        ⟨(), [Call.DisconnectSocket,
          Call.ConnectTCPSocket (ascii "10.0.0.5") (ascii "80")]⟩) ∧
    (failTransport.ConnectUDPSocket (ascii "10.0.0.5") (ascii "80") (ascii "9000") ()).1
      = some 7 ∧
    Device.DialUDP failTransport freshDevice (ascii "udp") (some ⟨⟨[]⟩, 9000, []⟩)
        (some ⟨ParseIP (ascii "10.0.0.5"), 80, []⟩) =
      .ok ((some ⟨⟨⟩, some ⟨⟨[]⟩, 9000, []⟩,
          some ⟨ParseIP (ascii "10.0.0.5"), 80, []⟩⟩, none),
        ⟨(), [Call.DisconnectSocket,
          Call.ConnectUDPSocket (ascii "10.0.0.5") (ascii "80") (ascii "9000")]⟩) ∧
    (failTransport.ConnectUDPSocket (ascii "0") (ascii "0") (ascii "9000") ()).1 = some 7 ∧
    Device.ListenUDP failTransport freshDevice (ascii "udp") (some ⟨⟨[]⟩, 9000, []⟩) =
      .ok ((some ⟨⟨⟩, some ⟨⟨[]⟩, 9000, []⟩, none⟩, none),
        ⟨(), [Call.DisconnectSocket,
          Call.ConnectUDPSocket (ascii "0") (ascii "0") (ascii "9000")]⟩) := by
  decide

/-- C2 as amended: for every transport behaviour, `DialUDP`, `ListenUDP` and
`DialTCP` (the endpoints they dereference non-nil) discard what the connect
command returns: each returns its session with a nil error. -/
theorem C2_dial_listen_return_nil_error (T : Transport σ E) (d : Device σ)
    (network : GoString) (la ra : UDPAddr) (tl : Option TCPAddr) (tr : TCPAddr) :
    (∃ d1, Device.DialUDP T d network (some la) (some ra) =
      .ok ((some ⟨⟨⟩, some la, some ra⟩, none), d1)) ∧
    (∃ d1, Device.ListenUDP T d network (some la) =
      .ok ((some ⟨⟨⟩, some la, none⟩, none), d1)) ∧
    (∃ d1, Device.DialTCP T d network tl (some tr) =
      .ok ((some ⟨⟨⟩, tl, some tr⟩, none), d1)) :=
  ⟨⟨_, rfl⟩, ⟨_, rfl⟩, ⟨_, rfl⟩⟩

/-- C3 refuted: on a transport whose `StartSocketSend` returns the error `7`
and whose raw write succeeds, `Write` of three bytes returns `(3, nil)`. -/
theorem C3_announce_error_not_returned :
    (failTransport.StartSocketSend 3 ()).1 = some 7 ∧
    (SerialConn.Write failTransport ⟨⟩ freshDevice (ascii "abc")).1 = (3, none) := by
  decide

/-- C3 as amended: the error `Write(b)` returns is the error of the raw
write made after the announce, whatever `StartSocketSend` returned. -/
theorem C3_Write_error_is_raw_write_error (T : Transport σ E) (c : SerialConn)
    (d : Device σ) (b : List Byte) :
    (c.Write T d b).1.2 = (T.Write b (T.StartSocketSend (b.length : Int) d.state).2).1.2 :=
  rfl

/-- C4: from any device state, `DialUDP`, `ListenUDP` and `DialTCP` (the
endpoints they dereference non-nil) issue exactly two transport calls: one
`DisconnectSocket`, then one connect command of their kind. -/
theorem C4_disconnect_then_connect (T : Transport σ E) (d : Device σ)
    (network : GoString) (la ra : UDPAddr) (tl : Option TCPAddr) (tr : TCPAddr) :
    (∃ r d1 c, Device.DialUDP T d network (some la) (some ra) = .ok (r, d1) ∧
      d1.log = d.log ++ [Call.DisconnectSocket, c] ∧ c.kind = .connectUDP) ∧
    (∃ r d1 c, Device.ListenUDP T d network (some la) = .ok (r, d1) ∧
      d1.log = d.log ++ [Call.DisconnectSocket, c] ∧ c.kind = .connectUDP) ∧
    (∃ r d1 c, Device.DialTCP T d network tl (some tr) = .ok (r, d1) ∧
      d1.log = d.log ++ [Call.DisconnectSocket, c] ∧ c.kind = .connectTCP) := by
  refine ⟨⟨_, _, Call.ConnectUDPSocket ra.IP.String (Itoa ra.Port) (Itoa la.Port), rfl, ?_, rfl⟩,
    ⟨_, _, Call.ConnectUDPSocket (ascii "0") (ascii "0") (Itoa la.Port), rfl, ?_, rfl⟩,
    ⟨_, _, Call.ConnectTCPSocket tr.IP.String (Itoa tr.Port), rfl, ?_, rfl⟩⟩ <;>
    simp [Device.ConnectUDPSocket, Device.ConnectTCPSocket, Device.DisconnectSocket]

/-- C5: with ports that are not negative, `DialTCP` calls
`ConnectTCPSocket(raddr.IP.String(), decimal(raddr.Port))` whatever `laddr`
is, `ListenUDP` calls `ConnectUDPSocket("0", "0", decimal(laddr.Port))` and
its session's `LocalAddr()` is `laddr`, and `DialUDP` calls
`ConnectUDPSocket(raddr.IP.String(), decimal(raddr.Port), decimal(laddr.Port))`. -/
theorem C5_connect_arguments (T : Transport σ E) (d : Device σ) (network : GoString)
    (la ra : UDPAddr) (tl : Option TCPAddr) (tr : TCPAddr)
    (hla : 0 ≤ la.Port) (hra : 0 ≤ ra.Port) (htr : 0 ≤ tr.Port) :
    (∃ r d1, Device.DialTCP T d network tl (some tr) = .ok (r, d1) ∧
      d1.log = d.log ++ [Call.DisconnectSocket,
        Call.ConnectTCPSocket tr.IP.String (decimal tr.Port.toNat)]) ∧
    (∃ c e d1, Device.ListenUDP T d network (some la) = .ok ((some c, e), d1) ∧
      d1.log = d.log ++ [Call.DisconnectSocket,
        Call.ConnectUDPSocket (ascii "0") (ascii "0") (decimal la.Port.toNat)] ∧
      c.LocalAddr = .ok la) ∧
    (∃ r d1, Device.DialUDP T d network (some la) (some ra) = .ok (r, d1) ∧
      d1.log = d.log ++ [Call.DisconnectSocket,
        Call.ConnectUDPSocket ra.IP.String (decimal ra.Port.toNat)
          (decimal la.Port.toNat)]) := by
  refine ⟨⟨_, _, rfl, ?_⟩, ⟨_, _, _, rfl, ?_, rfl⟩, ⟨_, _, rfl, ?_⟩⟩ <;>
    simp [Device.ConnectUDPSocket, Device.ConnectTCPSocket, Device.DisconnectSocket,
      Itoa_eq_decimal, hla, hra, htr]

/-- C5 at the inputs of the scenarios: address "10.0.0.5" port 80 gives
("10.0.0.5", "80"), `ListenUDP` on port 9000 gives ("0", "0", "9000"). -/
theorem C5_connect_arguments_witness :
    ((0 : Int) ≤ 9000 ∧ (0 : Int) ≤ 80) ∧
    ((∃ r d1, Device.DialTCP okTransport freshDevice (ascii "tcp") none
        (some ⟨ParseIP (ascii "10.0.0.5"), 80, []⟩) = .ok (r, d1) ∧
      d1.log = freshDevice.log ++ [Call.DisconnectSocket,
        Call.ConnectTCPSocket (ParseIP (ascii "10.0.0.5")).String
          (decimal (80 : Int).toNat)]) ∧
    (∃ c e d1, Device.ListenUDP okTransport freshDevice (ascii "udp")
        (some ⟨⟨[]⟩, 9000, []⟩) = .ok ((some c, e), d1) ∧
      d1.log = freshDevice.log ++ [Call.DisconnectSocket,
        Call.ConnectUDPSocket (ascii "0") (ascii "0") (decimal (9000 : Int).toNat)] ∧
      c.LocalAddr = .ok ⟨⟨[]⟩, 9000, []⟩) ∧
    (∃ r d1, Device.DialUDP okTransport freshDevice (ascii "udp")
        (some ⟨⟨[]⟩, 9000, []⟩) (some ⟨ParseIP (ascii "10.0.0.5"), 80, []⟩) = .ok (r, d1) ∧
      d1.log = freshDevice.log ++ [Call.DisconnectSocket,
        Call.ConnectUDPSocket (ParseIP (ascii "10.0.0.5")).String
          (decimal (80 : Int).toNat) (decimal (9000 : Int).toNat)])) ∧
    decimal (80 : Int).toNat = ascii "80" ∧ decimal (9000 : Int).toNat = ascii "9000" :=
  ⟨by decide,
    C5_connect_arguments okTransport freshDevice (ascii "udp") ⟨⟨[]⟩, 9000, []⟩
      ⟨ParseIP (ascii "10.0.0.5"), 80, []⟩ none ⟨ParseIP (ascii "10.0.0.5"), 80, []⟩
      (by decide) (by decide) (by decide),
    (decimal_eq_formatBits _).trans (by decide),
    (decimal_eq_formatBits _).trans (by decide)⟩

/-- C6: `Write(b)` issues exactly two transport calls, `StartSocketSend` with
`len(b)` and then the raw write of `b`, and returns what the raw write
returns. -/
theorem C6_Write_announce_then_raw_write (T : Transport σ E) (c : SerialConn)
    (d : Device σ) (b : List Byte) :
    (c.Write T d b).2.log =
      d.log ++ [Call.StartSocketSend (b.length : Int), Call.Write b] ∧
    (c.Write T d b).1 = (T.Write b (T.StartSocketSend (b.length : Int) d.state).2).1 := by
  constructor
  · simp [SerialConn.Write, Device.StartSocketSend, Device.Write]
  · rfl

/-! ## Resolving: `ResolveTCPAddr`, `ResolveUDPAddr`, `ParseIP` -/

/-- C7 refuted: the text after the first `:` of "host:80:90" is "80:90",
which `Atoi` rejects, yet `ResolveTCPAddr` and `ResolveUDPAddr` return an
endpoint with port 80 and no error. -/
theorem C7_second_colon_accepted :
    Atoi 32 (ascii "80:90") = .error ⟨ascii "80:90", .ErrSyntax⟩ ∧
    Device.ResolveTCPAddr okTransport 32 freshDevice (ascii "tcp") (ascii "host:80:90") =
      .ok ((some ⟨ParseIP (ascii "10.0.0.5"), 80, []⟩, none),
        ⟨(), [Call.GetDNS (ascii "host")]⟩) ∧
    Device.ResolveUDPAddr okTransport 32 freshDevice (ascii "udp") (ascii "host:80:90") =
      .ok ((some ⟨ParseIP (ascii "10.0.0.5"), 80, []⟩, none),
        ⟨(), [Call.GetDNS (ascii "host")]⟩) := by
  decide

/-- C7 as amended: the host sent to `GetDNS` is the text before the first
`:`, and the port segment is the text between the first `:` and the second
(or the end); what follows a second `:` is ignored.  When `GetDNS` succeeds,
the resolve returns the endpoint with the port `Atoi` reads from that
segment, and fails with the parse error of `Atoi` when it reads none. -/
theorem C7_resolve_port_segment (T : Transport σ E) (intSize : Nat) (d : Device σ)
    (network h seg rest : GoString) (hh : colon ∉ h) (hseg : colon ∉ seg)
    (hrest : rest = [] ∨ rest.head? = some colon)
    (hdns : (T.GetDNS h d.state).1.2 = none) :
    Device.ResolveTCPAddr T intSize d network (h ++ colon :: (seg ++ rest)) =
      .ok ((match Atoi intSize seg with
            | .ok port => (some ⟨(T.GetDNS h d.state).1.1, port, []⟩, none)
            | .error e => (none, some (.num e))),
          ⟨(T.GetDNS h d.state).2, d.log ++ [Call.GetDNS h]⟩) ∧
    Device.ResolveUDPAddr T intSize d network (h ++ colon :: (seg ++ rest)) =
      .ok ((match Atoi intSize seg with
            | .ok port => (some ⟨(T.GetDNS h d.state).1.1, port, []⟩, none)
            | .error e => (none, some (.num e))),
          ⟨(T.GetDNS h d.state).2, d.log ++ [Call.GetDNS h]⟩) := by
  obtain ⟨more, hsplit⟩ := Split_second h seg rest hh hseg hrest
  constructor
  · simp only [Device.ResolveTCPAddr, hsplit, Device.GetDNS, hdns]
    cases Atoi intSize seg <;> rfl
  · simp only [Device.ResolveUDPAddr, hsplit, Device.GetDNS, hdns]
    cases Atoi intSize seg <;> rfl

/-- C7 as amended, at "host:80:90" and at "host:80x": the first resolves to
port 80, the second fails with the parse error of "80x". -/
theorem C7_resolve_port_segment_witness :
    (colon ∉ ascii "host" ∧ colon ∉ ascii "80" ∧
      (ascii ":90" = [] ∨ (ascii ":90").head? = some colon) ∧
      (okTransport.GetDNS (ascii "host") freshDevice.state).1.2 = none) ∧
    (Device.ResolveTCPAddr okTransport 32 freshDevice (ascii "tcp")
        (ascii "host" ++ colon :: (ascii "80" ++ ascii ":90")) =
      .ok ((match Atoi 32 (ascii "80") with
            | .ok port =>
              (some ⟨(okTransport.GetDNS (ascii "host") freshDevice.state).1.1, port, []⟩, none)
            | .error e => (none, some (.num e))),
          ⟨(okTransport.GetDNS (ascii "host") freshDevice.state).2,
            freshDevice.log ++ [Call.GetDNS (ascii "host")]⟩) ∧
    Device.ResolveUDPAddr okTransport 32 freshDevice (ascii "tcp")
        (ascii "host" ++ colon :: (ascii "80" ++ ascii ":90")) =
      .ok ((match Atoi 32 (ascii "80") with
            | .ok port =>
              (some ⟨(okTransport.GetDNS (ascii "host") freshDevice.state).1.1, port, []⟩, none)
            | .error e => (none, some (.num e))),
          ⟨(okTransport.GetDNS (ascii "host") freshDevice.state).2,
            freshDevice.log ++ [Call.GetDNS (ascii "host")]⟩)) ∧
    (Device.ResolveTCPAddr okTransport 32 freshDevice (ascii "tcp") (ascii "host:80x")).map
      (fun r => r.1) = .ok (none, some (.num ⟨ascii "80x", .ErrSyntax⟩)) :=
  ⟨by decide,
    C7_resolve_port_segment okTransport 32 freshDevice (ascii "tcp") (ascii "host")
      (ascii "80") (ascii ":90") (by decide) (by decide) (by decide) (by decide),
    by decide⟩

/-- C8: when `GetDNS(h)` succeeds with `a`, for `h` without `:` and a port `p`
in 0..65535, resolving `h:decimal(p)` returns the endpoint with address `a`
and port `p`, and resolving `h` alone the endpoint with address `a` and port
0, without error, whatever the network-kind argument. -/
theorem C8_resolve_host_port (T : Transport σ E) (intSize : Nat) (d : Device σ)
    (network h : GoString) (p : Nat) (a : IP)
    (hint : intSize = 32 ∨ intSize = 64) (hh : colon ∉ h) (hp : p ≤ 65535)
    (hdns : (T.GetDNS h d.state).1 = (a, none)) :
    Device.ResolveTCPAddr T intSize d network (h ++ colon :: decimal p) =
      .ok ((some ⟨a, (p : Int), []⟩, none), (d.GetDNS T h).2) ∧
    Device.ResolveTCPAddr T intSize d network h =
      .ok ((some ⟨a, 0, []⟩, none), (d.GetDNS T h).2) ∧
    Device.ResolveUDPAddr T intSize d network (h ++ colon :: decimal p) =
      .ok ((some ⟨a, (p : Int), []⟩, none), (d.GetDNS T h).2) ∧
    Device.ResolveUDPAddr T intSize d network h =
      .ok ((some ⟨a, 0, []⟩, none), (d.GetDNS T h).2) := by
  have hdig : colon ∉ decimal p := by
    intro hmem
    by_cases h0 : p = 0
    · subst h0
      revert hmem
      decide
    · simp only [decimal, if_neg h0, List.mem_map] at hmem
      obtain ⟨x, _, hx⟩ := hmem
      have := congrArg Fin.val hx
      rw [digitByte_val] at this
      have : 48 + x % 10 = 58 := this
      omega
  have hsplit : Split (h ++ colon :: decimal p) colon = [h, decimal p] := by
    rw [Split_append_sep colon h _ hh, Split_of_not_mem colon _ hdig]
  have hrange : p < 2 ^ (intSize - 1) := by
    rcases hint with e | e <;> subst e <;> norm_num <;> omega
  have hatoi := Atoi_decimal intSize p hrange
  have h1 : (T.GetDNS h d.state).1.1 = a := by rw [hdns]
  have h2 : (T.GetDNS h d.state).1.2 = none := by rw [hdns]
  refine ⟨?_, ?_, ?_, ?_⟩
  · simp only [Device.ResolveTCPAddr, hsplit, Device.GetDNS, h1, h2, hatoi]
  · simp only [Device.ResolveTCPAddr, Split_of_not_mem colon h hh, Device.GetDNS, h1, h2]
  · simp only [Device.ResolveUDPAddr, hsplit, Device.GetDNS, h1, h2, hatoi]
  · simp only [Device.ResolveUDPAddr, Split_of_not_mem colon h hh, Device.GetDNS, h1, h2]

/-- C8 at "host:1234" and "host": port 1234 and port 0. -/
theorem C8_resolve_host_port_witness :
    ((32 = 32 ∨ 32 = 64) ∧ colon ∉ ascii "host" ∧ 1234 ≤ 65535 ∧
      (okTransport.GetDNS (ascii "host") freshDevice.state).1 =
        (ParseIP (ascii "10.0.0.5"), none)) ∧
    (Device.ResolveTCPAddr okTransport 32 freshDevice (ascii "tcp")
        (ascii "host" ++ colon :: decimal 1234) =
      .ok ((some ⟨ParseIP (ascii "10.0.0.5"), ((1234 : Nat) : Int), []⟩, none),
        (freshDevice.GetDNS okTransport (ascii "host")).2) ∧
    Device.ResolveTCPAddr okTransport 32 freshDevice (ascii "tcp") (ascii "host") =
      .ok ((some ⟨ParseIP (ascii "10.0.0.5"), 0, []⟩, none),
        (freshDevice.GetDNS okTransport (ascii "host")).2) ∧
    Device.ResolveUDPAddr okTransport 32 freshDevice (ascii "tcp")
        (ascii "host" ++ colon :: decimal 1234) =
      .ok ((some ⟨ParseIP (ascii "10.0.0.5"), ((1234 : Nat) : Int), []⟩, none),
        (freshDevice.GetDNS okTransport (ascii "host")).2) ∧
    Device.ResolveUDPAddr okTransport 32 freshDevice (ascii "tcp") (ascii "host") =
      .ok ((some ⟨ParseIP (ascii "10.0.0.5"), 0, []⟩, none),
        (freshDevice.GetDNS okTransport (ascii "host")).2)) ∧
    ascii "host" ++ colon :: decimal 1234 = ascii "host:1234" :=
  ⟨by decide,
    C8_resolve_host_port okTransport 32 freshDevice (ascii "tcp") (ascii "host") 1234
      (ParseIP (ascii "10.0.0.5")) (by decide) (by decide) (by decide) (by decide),
    by rw [decimal_eq_formatBits]; decide⟩

/-- C9: when `GetDNS(h)` succeeds, for `h` and `t` without `:` and `t` not a
base-10 integer, resolving `h:t` returns no endpoint and the parse error of
`Atoi` on `t`, and the one transport call it issues is `GetDNS(h)`. -/
theorem C9_resolve_malformed_port (T : Transport σ E) (intSize : Nat) (d : Device σ)
    (network h t : GoString) (hh : colon ∉ h) (ht : colon ∉ t)
    (hbad : isBase10Integer t = false) (hdns : (T.GetDNS h d.state).1.2 = none) :
    (∃ k d1, Device.ResolveTCPAddr T intSize d network (h ++ colon :: t) =
        .ok ((none, some (.num ⟨t, k⟩)), d1) ∧ d1.log = d.log ++ [Call.GetDNS h]) ∧
    (∃ k d1, Device.ResolveUDPAddr T intSize d network (h ++ colon :: t) =
        .ok ((none, some (.num ⟨t, k⟩)), d1) ∧ d1.log = d.log ++ [Call.GetDNS h]) ∧
    (Call.GetDNS h).isSocketOp = false := by
  obtain ⟨k, hk⟩ := Atoi_not_integer intSize t hbad
  have hsplit : Split (h ++ colon :: t) colon = [h, t] := by
    rw [Split_append_sep colon h _ hh, Split_of_not_mem colon _ ht]
  refine ⟨⟨k, ⟨(T.GetDNS h d.state).2, d.log ++ [Call.GetDNS h]⟩, ?_, rfl⟩,
    ⟨k, ⟨(T.GetDNS h d.state).2, d.log ++ [Call.GetDNS h]⟩, ?_, rfl⟩, rfl⟩
  · simp only [Device.ResolveTCPAddr, hsplit, Device.GetDNS, hdns, hk]
  · simp only [Device.ResolveUDPAddr, hsplit, Device.GetDNS, hdns, hk]

/-- C9 at "host:notanumber". -/
theorem C9_resolve_malformed_port_witness :
    (colon ∉ ascii "host" ∧ colon ∉ ascii "notanumber" ∧
      isBase10Integer (ascii "notanumber") = false ∧
      (okTransport.GetDNS (ascii "host") freshDevice.state).1.2 = none) ∧
    ((∃ k d1, Device.ResolveTCPAddr okTransport 32 freshDevice (ascii "tcp")
          (ascii "host" ++ colon :: ascii "notanumber") =
        .ok ((none, some (.num ⟨ascii "notanumber", k⟩)), d1) ∧
        d1.log = freshDevice.log ++ [Call.GetDNS (ascii "host")]) ∧
    (∃ k d1, Device.ResolveUDPAddr okTransport 32 freshDevice (ascii "tcp")
          (ascii "host" ++ colon :: ascii "notanumber") =
        .ok ((none, some (.num ⟨ascii "notanumber", k⟩)), d1) ∧
        d1.log = freshDevice.log ++ [Call.GetDNS (ascii "host")]) ∧
    (Call.GetDNS (ascii "host")).isSocketOp = false) ∧
    isBase10Integer (ascii "") = false :=
  ⟨by decide,
    C9_resolve_malformed_port okTransport 32 freshDevice (ascii "tcp") (ascii "host")
      (ascii "notanumber") (by decide) (by decide) (by decide) (by decide),
    by decide⟩

/-- C10: for every text `s`, `ParseIP(s).String()` is `s` and the bytes of
`ParseIP(s)` are the bytes of `s`; `ParseIP` is total and checks nothing. -/
theorem C10_ParseIP_String_roundtrip (s : GoString) :
    (ParseIP s).String = s ∧ (ParseIP s).bytes = s :=
  ⟨rfl, rfl⟩

end Espat
